import Mathlib

/-!
Verification of the authentication and session-lifecycle subsystem of the
`api_logistico` Express/SQLite service, as a shallow embedding in Lean.

The embedding follows the source files:
- `src/models/User.js` (User model: lookup, create, partial update, lockout logic),
- `src/controllers/authController.js` (login, refreshToken, logout, refresh-token ledger),
- `src/services/userService.js` (bulk import from the Excel mirror),
- `src/controllers/userController.js` (partial user update with role/status stripping).

Timestamps are modelled as natural numbers (milliseconds); database tables as
lists of rows; the external `bcryptjs` and `jsonwebtoken` libraries are
modelled by deterministic functions that keep their essential observable
behaviour (a bcrypt digest is a salted, prefixed string distinct from its
input; a JWT carries its claims, its expiry instant and the secret that
stands for its signature).
-/

/-- Security settings from `src/config/config` (`maxLoginAttempts`,
`lockoutTime`); the lockout duration is kept in milliseconds, matching the
`lockoutTime * 60 * 1000` computation in `User.incrementLoginAttempts`. -/
structure SecurityConfig where
  maxLoginAttempts : Nat
  lockoutTimeMs : Nat
deriving DecidableEq

/-- JWT settings from `src/config/config`: distinct signing secrets and
lifetimes for access and refresh tokens. -/
structure JwtConfig where
  secret : String
  refreshSecret : String
  expiresInMs : Nat
  refreshExpiresInMs : Nat
deriving DecidableEq

/-- Process-wide configuration, loaded once at startup. -/
structure Config where
  security : SecurityConfig
  jwt : JwtConfig
deriving DecidableEq

/-- Models the external bcryptjs `hash` with cost 12 and a fixed salt (the
model is deterministic). The output is a digest in the `$2a$12$...` format,
so it is never equal to the plaintext input. -/
def bcryptHash (password : String) : String :=
  "$2a$12$" ++ password

/-- Models bcryptjs `compare`: succeeds exactly when the stored credential is
the digest of the candidate password. -/
def bcryptCompare (password stored : String) : Bool :=
  decide (stored = bcryptHash password)

/-- A signed JWT, modelled structurally: the payload claims (`id`, `email`,
and for access tokens `role`), the expiry instant baked in at signing time,
and the secret it was signed with (standing for the signature). -/
structure Token where
  id : Nat
  email : String
  role : Option String
  exp : Nat
  secret : String
deriving DecidableEq

/-- The two failure modes of `jwt.verify`. -/
inductive JwtError where
  | invalid
  | expired
deriving DecidableEq

/-- Models `jwt.sign`: embeds the claims and `now + expiresIn` as the expiry. -/
def jwtSign (id : Nat) (email : String) (role : Option String) (secret : String)
    (expiresInMs : Nat) (now : Nat) : Token :=
  { id := id, email := email, role := role, exp := now + expiresInMs, secret := secret }

/-- Models `jwt.verify`: a signature mismatch fails with `invalid`, a token
whose embedded expiry has passed fails with `expired`, otherwise the decoded
claims are returned. -/
def jwtVerify (t : Token) (secret : String) (now : Nat) : Except JwtError Token :=
  if t.secret ≠ secret then .error .invalid
  else if t.exp ≤ now then .error .expired
  else .ok t

/-- A row of the `users` table, with the snake-case columns mapped to the
camelCase fields used by the `User` class constructor. -/
structure User where
  id : Nat
  firstName : String
  lastName : String
  email : String
  password : String
  role : String
  status : String
  loginAttempts : Nat
  lockedUntil : Option Nat
  createdAt : Nat
  updatedAt : Nat
deriving DecidableEq

/-- The partial-update payload accepted by `User.update`: a field is written
exactly when it is supplied (`some`); `lockedUntil` may be supplied as SQL
NULL, which is `some none`. -/
structure UpdateData where
  firstName : Option String
  lastName : Option String
  email : Option String
  password : Option String
  role : Option String
  status : Option String
  loginAttempts : Option Nat
  lockedUntil : Option (Option Nat)
deriving DecidableEq

/-- The update payload supplying no field at all. -/
def UpdateData.empty : UpdateData :=
  { firstName := none, lastName := none, email := none, password := none,
    role := none, status := none, loginAttempts := none, lockedUntil := none }

namespace User

/-- `User.findByEmail`: the first row of the users table whose email matches. -/
def findByEmail (users : List User) (email : String) : Option User :=
  users.find? fun u => decide (u.email = email)

/-- `User.findById`: the first row of the users table whose id matches. -/
def findById (users : List User) (id : Nat) : Option User :=
  users.find? fun u => decide (u.id = id)

/-- `User.isLocked`: lockedUntil is set and still in the future. -/
def isLocked (u : User) (now : Nat) : Bool :=
  match u.lockedUntil with
  | none => false
  | some t => decide (now < t)

/-- Whether the user with the given id exists and has active status. -/
def isActiveById (users : List User) (id : Nat) : Bool :=
  match findById users id with
  | none => false
  | some u => decide (u.status = "active")

/-- `User.update` applied to one row: every supplied field is written (a
supplied password is bcrypt-hashed with cost 12 first), every unsupplied
field keeps its value, and `updated_at` is always set to the write time. -/
def applyUpdate (now : Nat) (d : UpdateData) (u : User) : User :=
  { u with
    firstName := d.firstName.getD u.firstName,
    lastName := d.lastName.getD u.lastName,
    email := d.email.getD u.email,
    password := match d.password with
      | some p => bcryptHash p
      | none => u.password,
    role := d.role.getD u.role,
    status := d.status.getD u.status,
    loginAttempts := d.loginAttempts.getD u.loginAttempts,
    lockedUntil := d.lockedUntil.getD u.lockedUntil,
    updatedAt := now }

/-- The update issued by `User.incrementLoginAttempts`: one more failed
attempt, and a lock until `now + lockoutTime` once the configured maximum is
reached (below the maximum, `locked_until` is written as NULL). -/
def incrementData (cfg : Config) (now : Nat) (u : User) : UpdateData :=
  { UpdateData.empty with
    loginAttempts := some (u.loginAttempts + 1),
    lockedUntil := some (if cfg.security.maxLoginAttempts ≤ u.loginAttempts + 1
      then some (now + cfg.security.lockoutTimeMs) else none) }

/-- The update issued by `User.resetLoginAttempts`. -/
def resetData : UpdateData :=
  { UpdateData.empty with loginAttempts := some 0, lockedUntil := some none }

/-- The field payload of `User.create`. -/
structure CreateData where
  firstName : String
  lastName : String
  email : String
  password : String
  role : Option String
  status : Option String
deriving DecidableEq

/-- `User.create`: bcrypt-hashes the supplied password with cost 12 and
inserts a fresh row, with role and status defaulted to `user` and `active`;
returns the new table and the id following the inserted row. -/
def create (users : List User) (nextId : Nat) (now : Nat) (d : CreateData) :
    List User × Nat :=
  (users ++ [{ id := nextId,
               firstName := d.firstName,
               lastName := d.lastName,
               email := d.email,
               password := bcryptHash d.password,
               role := d.role.getD "user",
               status := d.status.getD "active",
               loginAttempts := 0,
               lockedUntil := none,
               createdAt := now,
               updatedAt := now }], nextId + 1)

end User

/-- `UPDATE users SET ... WHERE id = ?`: rewrites every row carrying the
given id. -/
def updateStore (users : List User) (id : Nat) (f : User → User) : List User :=
  users.map fun u => if u.id = id then f u else u

/-- Milliseconds per UTC day. -/
def msPerDay : Nat := 24 * 60 * 60 * 1000

/-- The UTC day index of a timestamp in milliseconds: the part of the
instant rendered as the ten-character zero-padded YYYY-MM-DD prefix of both
datetime text formats involved in the ledger query, a prefix that orders
exactly as this number does. -/
def utcDay (ms : Nat) : Nat := ms / msPerDay

/-- A row of the `refresh_tokens` table, holding the columns written by
`AuthController.storeRefreshToken` (`token`, `user_id`, `expires_at`). -/
structure LedgerRecord where
  token : Token
  userId : Nat
  expiresAt : Nat
deriving DecidableEq

/-- The joint persistent state the session operations act on: the `users`
table and the `refresh_tokens` table. -/
structure LoginState where
  users : List User
  ledger : List LedgerRecord
deriving DecidableEq

namespace AuthController

/-- Seven days in milliseconds, the ledger expiry horizon hard-coded in
`storeRefreshToken`. -/
def sevenDaysMs : Nat := 7 * 24 * 60 * 60 * 1000

/-- `AuthController.storeRefreshToken`: INSERT INTO refresh_tokens with
`expires_at = now + 7 days`, independent of the expiry claim embedded in the
token itself. -/
def storeRefreshToken (ledger : List LedgerRecord) (token : Token) (userId : Nat)
    (now : Nat) : List LedgerRecord :=
  ledger ++ [{ token := token, userId := userId, expiresAt := now + sevenDaysMs }]

/-- The condition `expires_at > datetime("now")` as SQLite actually
evaluates it inside `validateRefreshToken`. The stored `expires_at` is an
ISO text YYYY-MM-DDTHH:MM:SS.mmmZ (written by `storeRefreshToken` via
toISOString), while datetime("now") yields YYYY-MM-DD HH:MM:SS; neither
parses as a number under the column affinity, so the two are compared as raw
text. Their ten-character date prefixes order exactly as the UTC day numbers
do, and when the dates are equal the eleventh byte decides: 0x54 (uppercase
T) in the stored text against 0x20 (space) in datetime("now"), so the stored
text compares greater whatever the times of day are. A ledger row therefore
passes the expiry test exactly when its expiry lies on the same or a later
UTC day than the query instant, even if the expiry instant itself is already
past. -/
def expiresAtTextGtNow (expiresAt now : Nat) : Bool :=
  decide (utcDay now < utcDay expiresAt) ||
    (decide (utcDay expiresAt = utcDay now) && decide (' ' < 'T'))

/-- `AuthController.validateRefreshToken`: SELECT ... WHERE token = ? AND
user_id = ? AND expires_at > datetime("now"); true exactly when such a row
exists, with the expiry condition evaluated as the text comparison modelled
by `expiresAtTextGtNow`. -/
def validateRefreshToken (ledger : List LedgerRecord) (token : Token) (userId : Nat)
    (now : Nat) : Bool :=
  ledger.any fun r =>
    decide (r.token = token) && decide (r.userId = userId) &&
      expiresAtTextGtNow r.expiresAt now

/-- `AuthController.removeRefreshToken`: DELETE FROM refresh_tokens WHERE
token = ?; returns the remaining table and whether any row was deleted. -/
def removeRefreshToken (ledger : List LedgerRecord) (token : Token) :
    List LedgerRecord × Bool :=
  (ledger.filter fun r => decide (r.token ≠ token),
   ledger.any fun r => decide (r.token = token))

/-- The observable outcomes of `AuthController.login`, one per response the
controller can send. -/
inductive LoginOutcome where
  | invalidCredentials
  | accountInactive
  | accountLocked
  | tooManyAttempts
  | serverError
  | success (accessToken refreshTok : Token)
deriving DecidableEq

/-- Whether a login outcome carries tokens back to the caller. -/
def LoginOutcome.isSuccess : LoginOutcome → Bool
  | .success _ _ => true
  | _ => false

/-- The observable HTTP response (status code and message) sent for each
login outcome, exactly as written in `authController.js`. -/
def loginResponse : LoginOutcome → Nat × String
  | .invalidCredentials => (401, "Invalid credentials")
  | .accountInactive => (401, "Account is inactive")
  | .accountLocked =>
      (423, "Account is temporarily locked due to too many failed login attempts")
  | .tooManyAttempts =>
      (401, "Too many failed attempts. Account has been temporarily locked.")
  | .serverError => (500, "Server error")
  | .success _ _ => (200, "Login successful")

/-- `AuthController.login`. The step order follows the controller: lookup by
email, status check, lock check, password check (a failure drives
`incrementLoginAttempts` through `User.update`, with the escalated message
when the incremented count reaches the maximum), reset of the counters when
they were positive, token minting, and the ledger write. `ledgerWriteOk`
models whether the INSERT of the refresh token succeeds; when it rejects, the
error is caught and a server error is returned, so no tokens reach the
caller. -/
def login (cfg : Config) (st : LoginState) (email password : String) (now : Nat)
    (ledgerWriteOk : Bool) : LoginOutcome × LoginState :=
  match User.findByEmail st.users email with
  | none => (.invalidCredentials, st)
  | some user =>
    if user.status ≠ "active" then (.accountInactive, st)
    else if user.isLocked now then (.accountLocked, st)
    else if bcryptCompare password user.password then
      let st1 : LoginState :=
        if 0 < user.loginAttempts then
          { st with users := updateStore st.users user.id (User.applyUpdate now User.resetData) }
        else st
      let accessToken :=
        jwtSign user.id user.email (some user.role) cfg.jwt.secret cfg.jwt.expiresInMs now
      let refreshTok :=
        jwtSign user.id user.email none cfg.jwt.refreshSecret cfg.jwt.refreshExpiresInMs now
      if ledgerWriteOk then
        (.success accessToken refreshTok,
         { st1 with ledger := storeRefreshToken st1.ledger refreshTok user.id now })
      else (.serverError, st1)
    else
      let st1 : LoginState :=
        { st with users :=
            updateStore st.users user.id (User.applyUpdate now (User.incrementData cfg now user)) }
      if cfg.security.maxLoginAttempts ≤ user.loginAttempts + 1 then (.tooManyAttempts, st1)
      else (.invalidCredentials, st1)

/-- The observable outcomes of `AuthController.refreshToken`. -/
inductive RefreshOutcome where
  | missingToken
  | invalidRefreshToken
  | userNotFoundOrInactive
  | success (accessToken : Token)
deriving DecidableEq

/-- Whether a refresh outcome returns a new access token. -/
def RefreshOutcome.isSuccess : RefreshOutcome → Bool
  | .success _ => true
  | _ => false

/-- `AuthController.refreshToken`. A `jwt.verify` failure is caught and
reported as an invalid refresh token; then the ledger is consulted, the user
re-fetched and required to be active, and a fresh access token minted.
Neither the users table nor the ledger is modified. -/
def refreshToken (cfg : Config) (st : LoginState) (tok : Option Token) (now : Nat) :
    RefreshOutcome :=
  match tok with
  | none => .missingToken
  | some t =>
    match jwtVerify t cfg.jwt.refreshSecret now with
    | .error _ => .invalidRefreshToken
    | .ok decoded =>
      if validateRefreshToken st.ledger t decoded.id now then
        match User.findById st.users decoded.id with
        | none => .userNotFoundOrInactive
        | some user =>
          if user.status ≠ "active" then .userNotFoundOrInactive
          else .success
            (jwtSign user.id user.email (some user.role) cfg.jwt.secret cfg.jwt.expiresInMs now)
      else .invalidRefreshToken

/-- `AuthController.logout`: when a token is supplied it is deleted from the
ledger; the operation always reports success. -/
def logout (st : LoginState) (tok : Option Token) : Bool × LoginState :=
  match tok with
  | none => (true, st)
  | some t => (true, { st with ledger := (removeRefreshToken st.ledger t).1 })

end AuthController

/-- A flat record read from the Excel mirror, as consumed by
`UserService.initializeUsersFromExcel`. -/
structure ExcelUser where
  firstName : String
  lastName : String
  email : String
  password : String
  role : Option String
  status : Option String
deriving DecidableEq

namespace UserService

/-- `UserService.initializeUsersFromExcel`: for every Excel row whose email
is not yet in the store and whose email and password are non-empty (the
truthiness checks in the source), `User.create` is called with the row
fields, so the incoming password goes through the bcrypt hashing inside
`User.create`. Returns the new store, the next free id and the processed
count. -/
def initializeUsersFromExcel (now : Nat) :
    List ExcelUser → List User → Nat → List User × Nat × Nat
  | [], users, nextId => (users, nextId, 0)
  | r :: rest, users, nextId =>
    if User.findByEmail users r.email = none ∧ r.email ≠ "" ∧ r.password ≠ "" then
      let step := User.create users nextId now
        { firstName := r.firstName, lastName := r.lastName, email := r.email,
          password := r.password, role := r.role, status := r.status }
      let result := initializeUsersFromExcel now rest step.1 step.2
      (result.1, result.2.1, result.2.2 + 1)
    else
      initializeUsersFromExcel now rest users nextId

end UserService

namespace UserController

/-- The role/status stripping in `UserController.updateUser`: a supplied
truthy role or status is discarded unless the requesting user is an admin;
every other supplied field, including `loginAttempts` and `lockedUntil`, is
passed through to `User.update` unchanged (the update validation middleware
checks field formats but never removes fields from the body). -/
def sanitizeUpdate (currentRole : String) (d : UpdateData) : UpdateData :=
  let d1 := match d.role with
    | some r => if r ≠ "" ∧ currentRole ≠ "admin" then { d with role := none } else d
    | none => d
  match d1.status with
  | some s => if s ≠ "" ∧ currentRole ≠ "admin" then { d1 with status := none } else d1
  | none => d1

/-- The store write performed by `UserController.updateUser`: the target row
is rewritten with the sanitized partial update. -/
def updateUser (now : Nat) (currentRole : String) (target : User) (users : List User)
    (d : UpdateData) : List User :=
  updateStore users target.id (User.applyUpdate now (sanitizeUpdate currentRole d))

end UserController

/-! Concrete fixtures used by witnesses and counterexamples. -/

/-- A configuration with the default threshold of 3 attempts and a 15-minute
lockout, matching the defaults in `src/config/config`. -/
def stdCfg : Config :=
  { security := { maxLoginAttempts := 3, lockoutTimeMs := 900000 },
    jwt := { secret := "acc", refreshSecret := "ref", expiresInMs := 900000,
             refreshExpiresInMs := 604800000 } }

/-- A refresh token signed with the refresh secret, owned by user 4. -/
def c1Token : Token :=
  { id := 4, email := "c1@x.com", role := none, exp := 100, secret := "ref" }

/-- An inactive user owning a still-valid ledger entry. -/
def c1InactiveUser : User :=
  { id := 4, firstName := "Ina", lastName := "Active", email := "c1@x.com",
    password := bcryptHash "Pw1!", role := "user", status := "inactive",
    loginAttempts := 0, lockedUntil := none, createdAt := 0, updatedAt := 0 }

/-- State for the C1 counterexample: the token is signature-valid, unexpired
and present in the ledger with a future expiry, but its owner is inactive. -/
def c1State : LoginState :=
  { users := [c1InactiveUser],
    ledger := [{ token := c1Token, userId := 4, expiresAt := 200 }] }

/-- An active user owning a still-valid ledger entry, for the C1 witness. -/
def c1wUser : User :=
  { id := 4, firstName := "Ac", lastName := "Tive", email := "c1@x.com",
    password := bcryptHash "Pw1!", role := "user", status := "active",
    loginAttempts := 0, lockedUntil := none, createdAt := 0, updatedAt := 0 }

/-- State for the C1 witness: every acceptance condition holds. -/
def c1wState : LoginState :=
  { users := [c1wUser],
    ledger := [{ token := c1Token, userId := 4, expiresAt := 200 }] }

/-- An active, unlocked user two failed attempts short of nothing: one more
failure reaches the threshold of 3. -/
def c2User : User :=
  { id := 1, firstName := "Ana", lastName := "Lopez", email := "c2@x.com",
    password := bcryptHash "Secret1!", role := "user", status := "active",
    loginAttempts := 2, lockedUntil := none, createdAt := 0, updatedAt := 0 }

/-- Single-user state for the C2 witness. -/
def c2State : LoginState := { users := [c2User], ledger := [] }

/-- An external bulk record whose password field is already a bcrypt digest. -/
def c3Excel : ExcelUser :=
  { firstName := "Ex", lastName := "Ternal", email := "c3@x.com",
    password := "$2a$12$externalhash", role := none, status := none }

/-- An active user with no failed attempts but a stale, already-expired
`lockedUntil` timestamp. -/
def c4User : User :=
  { id := 1, firstName := "Sta", lastName := "Le", email := "c4@x.com",
    password := bcryptHash "Pw1!", role := "user", status := "active",
    loginAttempts := 0, lockedUntil := some 5, createdAt := 0, updatedAt := 0 }

/-- Single-user state for the C4 counterexample. -/
def c4State : LoginState := { users := [c4User], ledger := [] }

/-- An active user with two failed attempts and an expired lock, for the C4
witness. -/
def c4wUser : User :=
  { id := 1, firstName := "Re", lastName := "Set", email := "c4w@x.com",
    password := bcryptHash "Pw1!", role := "user", status := "active",
    loginAttempts := 2, lockedUntil := some 3, createdAt := 0, updatedAt := 0 }

/-- Single-user state for the C4 witness. -/
def c4wState : LoginState := { users := [c4wUser], ledger := [] }

/-- A refresh token for the C5 failing input. -/
def c5Token : Token :=
  { id := 4, email := "c5@x.com", role := none, exp := 99999, secret := "ref" }

/-- A one-row ledger whose single record expired at instant 10, to be
queried later the same UTC day: the C5 failing input. -/
def c5ExpiredLedger : List LedgerRecord :=
  [{ token := c5Token, userId := 4, expiresAt := 10 }]

/-- An active, unlocked user already at two failed attempts: the next failure
crosses the threshold of 3 and draws the escalated message. -/
def c7User : User :=
  { id := 1, firstName := "Th", lastName := "Reshold", email := "c7@x.com",
    password := bcryptHash "Right1!", role := "user", status := "active",
    loginAttempts := 2, lockedUntil := none, createdAt := 0, updatedAt := 0 }

/-- Single-user state for the C7 counterexample. -/
def c7State : LoginState := { users := [c7User], ledger := [] }

/-- An active, unlocked user with no prior failed attempts, for the C7
witness (a failure stays below the threshold). -/
def c7wUser : User :=
  { id := 1, firstName := "Be", lastName := "Low", email := "c7w@x.com",
    password := bcryptHash "Right1!", role := "user", status := "active",
    loginAttempts := 0, lockedUntil := none, createdAt := 0, updatedAt := 0 }

/-- Single-user state for the C7 witness. -/
def c7wState : LoginState := { users := [c7wUser], ledger := [] }

/-- A user row for the C8 witness. -/
def c8User : User :=
  { id := 9, firstName := "Old", lastName := "Name", email := "c8@x.com",
    password := bcryptHash "Pw1!", role := "user", status := "active",
    loginAttempts := 1, lockedUntil := some 77, createdAt := 0, updatedAt := 0 }

/-- A partial update supplying only `firstName` and a NULL `lockedUntil`. -/
def c8Data : UpdateData :=
  { UpdateData.empty with firstName := some "New", lockedUntil := some none }

/-- A refresh token with one matching ledger row, for the C9 witness. -/
def c9Token : Token :=
  { id := 2, email := "c9@x.com", role := none, exp := 500, secret := "ref" }

/-- A one-row ledger state for the C9 witness. -/
def c9State : LoginState :=
  { users := [], ledger := [{ token := c9Token, userId := 2, expiresAt := 800 }] }

/-- A non-admin user currently locked until time 1000 with five failed
attempts on record. -/
def c10User : User :=
  { id := 6, firstName := "Lo", lastName := "Cked", email := "c10@x.com",
    password := bcryptHash "Pw1!", role := "user", status := "active",
    loginAttempts := 5, lockedUntil := some 1000, createdAt := 0, updatedAt := 0 }

/-- A self-update that tries to escalate role and status and clears the
lockout fields. -/
def c10Data : UpdateData :=
  { UpdateData.empty with
    role := some "admin", status := some "inactive",
    loginAttempts := some 0, lockedUntil := some none }

/-! Helper lemmas shared by the claim theorems. -/

/-- Rewriting the rows carrying the id of the user found by email, with a
row transformation that preserves emails, leaves that user found by email and
returns its transformed row. -/
theorem User.findByEmail_updateStore (users : List User) (email : String) (u : User)
    (f : User → User) (hf : ∀ v, (f v).email = v.email)
    (h : User.findByEmail users email = some u) :
    User.findByEmail (updateStore users u.id f) email = some (f u) := by
  have hg : ∀ w : User, ((if w.id = u.id then f w else w) : User).email = w.email := by
    intro w
    by_cases hid : w.id = u.id <;> simp [hid, hf]
  unfold User.findByEmail updateStore at *
  rw [List.find?_map]
  have hp : ((fun x : User => decide (x.email = email)) ∘ fun w : User =>
      if w.id = u.id then f w else w) = fun w : User => decide (w.email = email) := by
    funext w
    simp [Function.comp, hg w]
  rw [hp, h]
  simp

/-- A login attempt against an active account whose lock is still in force is
rejected as locked and leaves the whole state unchanged. -/
theorem AuthController.login_of_locked (cfg : Config) (st : LoginState)
    (email password : String) (now : Nat) (wk : Bool) (u : User)
    (hfind : User.findByEmail st.users email = some u)
    (hactive : u.status = "active")
    (hlock : u.isLocked now = true) :
    AuthController.login cfg st email password now wk = (.accountLocked, st) := by
  unfold AuthController.login
  rw [hfind]
  simp [hactive, hlock]

/-- A login attempt against an account that is not currently locked is never
rejected as locked, whatever else happens. -/
theorem AuthController.login_ne_accountLocked (cfg : Config) (st : LoginState)
    (email password : String) (now : Nat) (wk : Bool) (u : User)
    (hfind : User.findByEmail st.users email = some u)
    (hunlocked : u.isLocked now = false) :
    (AuthController.login cfg st email password now wk).1 ≠ .accountLocked := by
  unfold AuthController.login
  rw [hfind]
  by_cases hs : u.status = "active" <;>
    cases hc : bcryptCompare password u.password <;>
      cases wk <;>
        by_cases hm : cfg.security.maxLoginAttempts ≤ u.loginAttempts + 1 <;>
          simp [hs, hunlocked, hc, hm]

/-! Claim theorems. -/

/-- C3: the spec requires the bulk reconcile to persist the incoming,
already-hashed password unchanged, and the source comments document the same
intent, but `User.create` unconditionally bcrypt-hashes its password
argument, so the Excel password is hashed a second time before persistence.
Evaluated at the failing input: a fresh store and one external record whose
password is already a bcrypt digest. -/
theorem c3_bulk_import_rehashes_password :
    ((UserService.initializeUsersFromExcel 0 [c3Excel] [] 1).1.map User.password) =
      [bcryptHash c3Excel.password] ∧
    bcryptHash c3Excel.password ≠ c3Excel.password := by
  decide

/-- C5: the claim (with the spec, and the source comment that the query
looks for a non-expired token) requires the existence check to return true
only when the matching record's expiry is strictly later than the query
time; but the SQL text comparison of the ISO-format `expires_at` against
datetime("now") treats every record expiring the same UTC day as live. At
the failing input, the single ledger row expired at instant 10 and is
queried at instant 1000 of the same UTC day: every row's expiry is already
past, yet the check still returns true. -/
theorem c5_expired_same_day_record_still_validates :
    (∀ r ∈ c5ExpiredLedger, r.expiresAt ≤ 1000 ∧ utcDay r.expiresAt = utcDay 1000) ∧
    AuthController.validateRefreshToken c5ExpiredLedger c5Token 4 1000 = true := by
  decide

/-- C6: whenever the ledger write of the refresh token fails, the login
operation as a whole fails and no tokens are returned to the caller, for
every configuration, state and credential pair. -/
theorem c6_no_tokens_without_ledger_write (cfg : Config) (st : LoginState)
    (email password : String) (now : Nat) :
    ((AuthController.login cfg st email password now false).1).isSuccess = false := by
  unfold AuthController.login
  cases hfind : User.findByEmail st.users email with
  | none => rfl
  | some u =>
    by_cases hs : u.status = "active" <;>
      cases hl : u.isLocked now <;>
        cases hc : bcryptCompare password u.password <;>
          by_cases hm : cfg.security.maxLoginAttempts ≤ u.loginAttempts + 1 <;>
            simp [hs, hl, hc, hm, AuthController.LoginOutcome.isSuccess]

/-- C8: a partial update writes exactly the supplied fields (a supplied
password is stored as its bcrypt hash), leaves every unsupplied field at its
previous value, and always refreshes `updatedAt`. -/
theorem c8_partial_update_frame (now : Nat) (d : UpdateData) (u : User) :
    (User.applyUpdate now d u).updatedAt = now ∧
    (User.applyUpdate now d u).id = u.id ∧
    (d.firstName = none → (User.applyUpdate now d u).firstName = u.firstName) ∧
    (∀ v, d.firstName = some v → (User.applyUpdate now d u).firstName = v) ∧
    (d.lastName = none → (User.applyUpdate now d u).lastName = u.lastName) ∧
    (∀ v, d.lastName = some v → (User.applyUpdate now d u).lastName = v) ∧
    (d.email = none → (User.applyUpdate now d u).email = u.email) ∧
    (∀ v, d.email = some v → (User.applyUpdate now d u).email = v) ∧
    (d.password = none → (User.applyUpdate now d u).password = u.password) ∧
    (∀ v, d.password = some v → (User.applyUpdate now d u).password = bcryptHash v) ∧
    (d.role = none → (User.applyUpdate now d u).role = u.role) ∧
    (∀ v, d.role = some v → (User.applyUpdate now d u).role = v) ∧
    (d.status = none → (User.applyUpdate now d u).status = u.status) ∧
    (∀ v, d.status = some v → (User.applyUpdate now d u).status = v) ∧
    (d.loginAttempts = none → (User.applyUpdate now d u).loginAttempts = u.loginAttempts) ∧
    (∀ v, d.loginAttempts = some v → (User.applyUpdate now d u).loginAttempts = v) ∧
    (d.lockedUntil = none → (User.applyUpdate now d u).lockedUntil = u.lockedUntil) ∧
    (∀ v, d.lockedUntil = some v → (User.applyUpdate now d u).lockedUntil = v) := by
  refine ⟨rfl, rfl, ?_, ?_, ?_, ?_, ?_, ?_, ?_, ?_, ?_, ?_, ?_, ?_, ?_, ?_, ?_, ?_⟩ <;>
    intros <;> simp_all [User.applyUpdate]

/-- Witness for C8: an update supplying `firstName` and a NULL `lockedUntil`
refreshes `updatedAt`, writes both supplied fields and keeps `lastName`. -/
theorem c8_partial_update_frame_witness :
    (User.applyUpdate 7 c8Data c8User).updatedAt = 7 ∧
    (User.applyUpdate 7 c8Data c8User).firstName = "New" ∧
    (User.applyUpdate 7 c8Data c8User).lastName = c8User.lastName ∧
    (User.applyUpdate 7 c8Data c8User).lockedUntil = none := by
  obtain ⟨h1, _, _, h4, h5, _, _, _, _, _, _, _, _, _, _, _, _, h18⟩ :=
    c8_partial_update_frame 7 c8Data c8User
  exact ⟨h1, h4 "New" rfl, h5 rfl, h18 none rfl⟩

/-- C9: logout always reports success, a second logout with the same token
also succeeds, and when a token is supplied every matching ledger row is
deleted. -/
theorem c9_logout_idempotent (st : LoginState) (tok : Option Token) :
    (AuthController.logout st tok).1 = true ∧
    (AuthController.logout (AuthController.logout st tok).2 tok).1 = true ∧
    ∀ t, tok = some t → ∀ r ∈ (AuthController.logout st tok).2.ledger, r.token ≠ t := by
  refine ⟨?_, ?_, ?_⟩
  · cases tok <;> rfl
  · cases tok <;> rfl
  · intro t ht r hr
    subst ht
    simp only [AuthController.logout, AuthController.removeRefreshToken] at hr
    have := List.mem_filter.mp hr
    simpa using this.2

/-- Witness for C9 at a one-row ledger holding the supplied token. -/
theorem c9_logout_idempotent_witness :
    (AuthController.logout c9State (some c9Token)).1 = true ∧
    (AuthController.logout (AuthController.logout c9State (some c9Token)).2
      (some c9Token)).1 = true ∧
    ∀ r ∈ (AuthController.logout c9State (some c9Token)).2.ledger, r.token ≠ c9Token := by
  obtain ⟨h1, h2, h3⟩ := c9_logout_idempotent c9State (some c9Token)
  exact ⟨h1, h2, h3 c9Token rfl⟩

/-- C2: a failed password check on an active, not-currently-locked account
whose incremented attempt count reaches the configured maximum locks the
account until `now + lockout duration` (the escalated message is returned and
the stored row carries the new counter and lock); afterwards, every login
attempt against the resulting state while the lock is still in force is
rejected as AccountLocked whatever password is supplied, and changes neither
the counters nor anything else. -/
theorem c2_threshold_locks_and_locked_rejects (cfg : Config) (st : LoginState)
    (email password : String) (now : Nat) (wk : Bool) (u : User)
    (hfind : User.findByEmail st.users email = some u)
    (hactive : u.status = "active")
    (hunlocked : u.isLocked now = false)
    (hwrong : bcryptCompare password u.password = false)
    (hth : cfg.security.maxLoginAttempts ≤ u.loginAttempts + 1) :
    (AuthController.login cfg st email password now wk).1 = .tooManyAttempts ∧
    User.findByEmail (AuthController.login cfg st email password now wk).2.users email =
      some (User.applyUpdate now (User.incrementData cfg now u) u) ∧
    (User.applyUpdate now (User.incrementData cfg now u) u).loginAttempts =
      u.loginAttempts + 1 ∧
    (User.applyUpdate now (User.incrementData cfg now u) u).lockedUntil =
      some (now + cfg.security.lockoutTimeMs) ∧
    ∀ (password2 : String) (now2 : Nat) (wk2 : Bool),
      now2 < now + cfg.security.lockoutTimeMs →
      AuthController.login cfg (AuthController.login cfg st email password now wk).2
          email password2 now2 wk2 =
        (.accountLocked, (AuthController.login cfg st email password now wk).2) := by
  have hlogin : AuthController.login cfg st email password now wk =
      (.tooManyAttempts,
       { st with users := updateStore st.users u.id (User.applyUpdate now (User.incrementData cfg now u)) }) := by
    unfold AuthController.login
    rw [hfind]
    simp [hactive, hunlocked, hwrong, hth]
  have hemail : ∀ v : User,
      (User.applyUpdate now (User.incrementData cfg now u) v).email = v.email := by
    intro v
    simp [User.applyUpdate, User.incrementData, UpdateData.empty]
  have hfind2 : User.findByEmail
      (updateStore st.users u.id (User.applyUpdate now (User.incrementData cfg now u)))
      email = some (User.applyUpdate now (User.incrementData cfg now u) u) :=
    User.findByEmail_updateStore st.users email u _ hemail hfind
  have hla : (User.applyUpdate now (User.incrementData cfg now u) u).loginAttempts =
      u.loginAttempts + 1 := by
    simp [User.applyUpdate, User.incrementData, UpdateData.empty]
  have hlu : (User.applyUpdate now (User.incrementData cfg now u) u).lockedUntil =
      some (now + cfg.security.lockoutTimeMs) := by
    simp [User.applyUpdate, User.incrementData, UpdateData.empty, hth]
  refine ⟨by rw [hlogin], by rw [hlogin]; exact hfind2, hla, hlu, ?_⟩
  intro password2 now2 wk2 hlt
  rw [hlogin]
  have hst : (User.applyUpdate now (User.incrementData cfg now u) u).status = "active" := by
    simp [User.applyUpdate, User.incrementData, UpdateData.empty, hactive]
  have hlk : (User.applyUpdate now (User.incrementData cfg now u) u).isLocked now2 = true := by
    unfold User.isLocked
    rw [hlu]
    simpa using hlt
  exact AuthController.login_of_locked cfg _ email password2 now2 wk2 _ hfind2 hst hlk

/-- Witness for C2: with the default threshold of 3, a third consecutive
failure at time 1000 locks the account until 901000, and an attempt inside
the lock window is rejected as locked without changing the state. -/
theorem c2_threshold_locks_and_locked_rejects_witness :
    (User.findByEmail c2State.users "c2@x.com" = some c2User ∧
     c2User.status = "active" ∧
     c2User.isLocked 1000 = false ∧
     bcryptCompare "bad" c2User.password = false ∧
     stdCfg.security.maxLoginAttempts ≤ c2User.loginAttempts + 1) ∧
    ((AuthController.login stdCfg c2State "c2@x.com" "bad" 1000 true).1 =
        .tooManyAttempts ∧
     User.findByEmail
        (AuthController.login stdCfg c2State "c2@x.com" "bad" 1000 true).2.users
        "c2@x.com" =
        some (User.applyUpdate 1000 (User.incrementData stdCfg 1000 c2User) c2User) ∧
     (User.applyUpdate 1000 (User.incrementData stdCfg 1000 c2User) c2User).loginAttempts =
        c2User.loginAttempts + 1 ∧
     (User.applyUpdate 1000 (User.incrementData stdCfg 1000 c2User) c2User).lockedUntil =
        some (1000 + stdCfg.security.lockoutTimeMs) ∧
     ∀ (password2 : String) (now2 : Nat) (wk2 : Bool),
        now2 < 1000 + stdCfg.security.lockoutTimeMs →
        AuthController.login stdCfg
            (AuthController.login stdCfg c2State "c2@x.com" "bad" 1000 true).2
            "c2@x.com" password2 now2 wk2 =
          (.accountLocked,
           (AuthController.login stdCfg c2State "c2@x.com" "bad" 1000 true).2)) :=
  ⟨⟨by decide, by decide, by decide, by decide, by decide⟩,
   c2_threshold_locks_and_locked_rejects stdCfg c2State "c2@x.com" "bad" 1000 true c2User
     (by decide) (by decide) (by decide) (by decide) (by decide)⟩

/-- C4 counterexample: a successful login for an active user with
`failedLoginCount = 0` but a stale, already-expired `lockedUntil` timestamp
succeeds yet leaves `lockedUntil` set, because the reset is only performed
when the counter is positive. The claim that every successful login leaves
`lockedUntil` unset is therefore false at this input. -/
theorem c4_stale_lock_survives_success :
    ((AuthController.login stdCfg c4State "c4@x.com" "Pw1!" 10 true).1).isSuccess = true ∧
    ((AuthController.login stdCfg c4State "c4@x.com" "Pw1!" 10 true).2.users.map
        User.lockedUntil) = [some 5] := by
  decide

/-- C4 (amended): every successful login leaves `failedLoginCount` at 0, and
leaves `lockedUntil` unset provided the counter was positive before the
attempt or `lockedUntil` was already unset; when the counter is 0 the reset
is skipped, so a stale `lockedUntil` value survives unchanged. -/
theorem c4_success_resets_counters (cfg : Config) (st : LoginState)
    (email password : String) (now : Nat) (u : User)
    (hfind : User.findByEmail st.users email = some u)
    (hactive : u.status = "active")
    (hunlocked : u.isLocked now = false)
    (hright : bcryptCompare password u.password = true) :
    ((AuthController.login cfg st email password now true).1).isSuccess = true ∧
    ∃ v, User.findByEmail (AuthController.login cfg st email password now true).2.users email
        = some v ∧
      v.loginAttempts = 0 ∧
      ((0 < u.loginAttempts ∨ u.lockedUntil = none) → v.lockedUntil = none) := by
  by_cases hpos : 0 < u.loginAttempts
  · unfold AuthController.login
    rw [hfind]
    simp only [hactive, hunlocked, hright, hpos]
    simp [AuthController.LoginOutcome.isSuccess]
    refine ⟨User.applyUpdate now User.resetData u, ?_, ?_, ?_⟩
    · exact User.findByEmail_updateStore st.users email u _
        (fun v => by simp [User.applyUpdate, User.resetData, UpdateData.empty]) hfind
    · simp [User.applyUpdate, User.resetData, UpdateData.empty]
    · simp [User.applyUpdate, User.resetData, UpdateData.empty]
  · have hz : u.loginAttempts = 0 := by omega
    unfold AuthController.login
    rw [hfind]
    simp only [hactive, hunlocked, hright, hpos]
    simp [AuthController.LoginOutcome.isSuccess]
    refine ⟨u, hfind, hz, ?_⟩
    intro h
    exact h

/-- Witness for C4: a successful login after two failed attempts and an
expired lock resets the counter to 0 and clears `lockedUntil`. -/
theorem c4_success_resets_counters_witness :
    (User.findByEmail c4wState.users "c4w@x.com" = some c4wUser ∧
     c4wUser.status = "active" ∧
     c4wUser.isLocked 10 = false ∧
     bcryptCompare "Pw1!" c4wUser.password = true) ∧
    (((AuthController.login stdCfg c4wState "c4w@x.com" "Pw1!" 10 true).1).isSuccess = true ∧
     ∃ v, User.findByEmail
         (AuthController.login stdCfg c4wState "c4w@x.com" "Pw1!" 10 true).2.users
         "c4w@x.com" = some v ∧
       v.loginAttempts = 0 ∧
       ((0 < c4wUser.loginAttempts ∨ c4wUser.lockedUntil = none) → v.lockedUntil = none)) :=
  ⟨⟨by decide, by decide, by decide, by decide⟩,
   c4_success_resets_counters stdCfg c4wState "c4w@x.com" "Pw1!" 10 c4wUser
     (by decide) (by decide) (by decide) (by decide)⟩

/-- C7 counterexample: a wrong-password attempt that reaches the threshold
draws the escalated too-many-attempts message, while an unknown email draws
the plain invalid-credentials message, so the two observable responses
differ and reveal that the email exists. The claim that every such pair
yields the same InvalidCredentials result is therefore false at this input. -/
theorem c7_threshold_message_reveals_account :
    c7User.status = "active" ∧
    c7User.isLocked 0 = false ∧
    bcryptCompare "wrong" c7User.password = false ∧
    User.findByEmail c7State.users "ghost@x.com" = none ∧
    AuthController.loginResponse
        (AuthController.login stdCfg c7State "ghost@x.com" "wrong" 0 true).1 ≠
      AuthController.loginResponse
        (AuthController.login stdCfg c7State "c7@x.com" "wrong" 0 true).1 := by
  decide

/-- C7 (amended): provided the failed attempt leaves the counter below the
threshold, an unknown email and a wrong password for an active, unlocked
account produce the identical InvalidCredentials response (same status code
and message), so the outcome does not reveal whether the email exists. -/
theorem c7_uniform_invalid_credentials (cfg : Config) (st st2 : LoginState)
    (email email2 password password2 : String) (now now2 : Nat) (wk wk2 : Bool) (u : User)
    (hfind : User.findByEmail st.users email = some u)
    (hactive : u.status = "active")
    (hunlocked : u.isLocked now = false)
    (hwrong : bcryptCompare password u.password = false)
    (hbelow : u.loginAttempts + 1 < cfg.security.maxLoginAttempts)
    (hghost : User.findByEmail st2.users email2 = none) :
    AuthController.loginResponse (AuthController.login cfg st email password now wk).1 =
      AuthController.loginResponse (AuthController.login cfg st2 email2 password2 now2 wk2).1 ∧
    (AuthController.login cfg st email password now wk).1 = .invalidCredentials := by
  have hnle : ¬ cfg.security.maxLoginAttempts ≤ u.loginAttempts + 1 := Nat.not_le.mpr hbelow
  have h1 : (AuthController.login cfg st email password now wk).1 = .invalidCredentials := by
    unfold AuthController.login
    rw [hfind]
    simp [hactive, hunlocked, hwrong, hnle]
  have h2 : (AuthController.login cfg st2 email2 password2 now2 wk2).1 =
      .invalidCredentials := by
    unfold AuthController.login
    rw [hghost]
  rw [h1, h2]
  exact ⟨rfl, rfl⟩

/-- Witness for C7: with no prior failures, a wrong password and an unknown
email produce the same 401 Invalid credentials response. -/
theorem c7_uniform_invalid_credentials_witness :
    (User.findByEmail c7wState.users "c7w@x.com" = some c7wUser ∧
     c7wUser.status = "active" ∧
     c7wUser.isLocked 0 = false ∧
     bcryptCompare "wrong" c7wUser.password = false ∧
     c7wUser.loginAttempts + 1 < stdCfg.security.maxLoginAttempts ∧
     User.findByEmail c7wState.users "ghost@x.com" = none) ∧
    (AuthController.loginResponse
        (AuthController.login stdCfg c7wState "c7w@x.com" "wrong" 0 true).1 =
      AuthController.loginResponse
        (AuthController.login stdCfg c7wState "ghost@x.com" "bad" 5 false).1 ∧
     (AuthController.login stdCfg c7wState "c7w@x.com" "wrong" 0 true).1 =
       .invalidCredentials) :=
  ⟨⟨by decide, by decide, by decide, by decide, by decide, by decide⟩,
   c7_uniform_invalid_credentials stdCfg c7wState c7wState "c7w@x.com" "ghost@x.com"
     "wrong" "bad" 0 5 true false c7wUser
     (by decide) (by decide) (by decide) (by decide) (by decide) (by decide)⟩

/-- C10: when a non-admin submits a partial update, supplied (truthy) role
and status fields are discarded before the store write, but supplied
`loginAttempts` and `lockedUntil` fields are passed through and applied; in
particular an update supplying `lockedUntil` = NULL and `loginAttempts` = 0
on a currently locked identity clears the lockout, after which a login
attempt for that identity is never rejected as AccountLocked. -/
theorem c10_self_update_clears_lockout (now now0 : Nat) (currentRole : String)
    (d : UpdateData) (u : User)
    (hnadm : currentRole ≠ "admin")
    (hr : ∃ r, d.role = some r ∧ r ≠ "")
    (hs : ∃ s, d.status = some s ∧ s ≠ "")
    (hla : d.loginAttempts = some 0)
    (hlu : d.lockedUntil = some none)
    (_hlocked : u.isLocked now0 = true) :
    (User.applyUpdate now (UserController.sanitizeUpdate currentRole d) u).role = u.role ∧
    (User.applyUpdate now (UserController.sanitizeUpdate currentRole d) u).status = u.status ∧
    (User.applyUpdate now (UserController.sanitizeUpdate currentRole d) u).loginAttempts = 0 ∧
    (User.applyUpdate now (UserController.sanitizeUpdate currentRole d) u).lockedUntil = none ∧
    ∀ (cfg : Config) (st : LoginState) (password : String) (now2 : Nat) (wk : Bool),
      User.findByEmail st.users
          (User.applyUpdate now (UserController.sanitizeUpdate currentRole d) u).email =
        some (User.applyUpdate now (UserController.sanitizeUpdate currentRole d) u) →
      (AuthController.login cfg st
          (User.applyUpdate now (UserController.sanitizeUpdate currentRole d) u).email
          password now2 wk).1 ≠ .accountLocked := by
  obtain ⟨r, hdr, hrne⟩ := hr
  obtain ⟨s, hds, hsne⟩ := hs
  have hu2lu : (User.applyUpdate now (UserController.sanitizeUpdate currentRole d) u).lockedUntil
      = none := by
    simp [User.applyUpdate, UserController.sanitizeUpdate, hdr, hds, hrne, hsne, hnadm, hlu]
  refine ⟨?_, ?_, ?_, hu2lu, ?_⟩
  · simp [User.applyUpdate, UserController.sanitizeUpdate, hdr, hds, hrne, hsne, hnadm]
  · simp [User.applyUpdate, UserController.sanitizeUpdate, hdr, hds, hrne, hsne, hnadm]
  · simp [User.applyUpdate, UserController.sanitizeUpdate, hdr, hds, hrne, hsne, hnadm, hla]
  · intro cfg st password now2 wk hfind
    have hnl : (User.applyUpdate now (UserController.sanitizeUpdate currentRole d) u).isLocked
        now2 = false := by
      unfold User.isLocked
      rw [hu2lu]
    exact AuthController.login_ne_accountLocked cfg st _ password now2 wk _ hfind hnl

/-- Witness for C10: a locked non-admin user self-updates with role and
status escalation attempts plus cleared lockout fields; role and status stay,
the lockout is cleared, and a later login attempt is not rejected as locked. -/
theorem c10_self_update_clears_lockout_witness :
    ("user" ≠ "admin" ∧
     (∃ r, c10Data.role = some r ∧ r ≠ "") ∧
     (∃ s, c10Data.status = some s ∧ s ≠ "") ∧
     c10Data.loginAttempts = some 0 ∧
     c10Data.lockedUntil = some none ∧
     c10User.isLocked 0 = true) ∧
    ((User.applyUpdate 7 (UserController.sanitizeUpdate "user" c10Data) c10User).role =
        c10User.role ∧
     (User.applyUpdate 7 (UserController.sanitizeUpdate "user" c10Data) c10User).status =
        c10User.status ∧
     (User.applyUpdate 7 (UserController.sanitizeUpdate "user" c10Data) c10User).loginAttempts
        = 0 ∧
     (User.applyUpdate 7 (UserController.sanitizeUpdate "user" c10Data) c10User).lockedUntil
        = none ∧
     ∀ (cfg : Config) (st : LoginState) (password : String) (now2 : Nat) (wk : Bool),
       User.findByEmail st.users
           (User.applyUpdate 7 (UserController.sanitizeUpdate "user" c10Data) c10User).email =
         some (User.applyUpdate 7 (UserController.sanitizeUpdate "user" c10Data) c10User) →
       (AuthController.login cfg st
           (User.applyUpdate 7 (UserController.sanitizeUpdate "user" c10Data) c10User).email
           password now2 wk).1 ≠ .accountLocked) :=
  ⟨⟨by decide, ⟨"admin", by decide, by decide⟩, ⟨"inactive", by decide, by decide⟩,
    by decide, by decide, by decide⟩,
   c10_self_update_clears_lockout 7 0 "user" c10Data c10User (by decide)
     ⟨"admin", by decide, by decide⟩ ⟨"inactive", by decide, by decide⟩
     (by decide) (by decide) (by decide)⟩

/-- C1 counterexample: a refresh token that is signature-valid, unexpired by
its own claim, and present in the ledger in a matching row whose expiry is
strictly in the future (so the row also passes the SQL text comparison) is
still rejected when its owning user is inactive, so the acceptance
conditions of the claim are not sufficient. -/
theorem c1_inactive_user_rejected_despite_valid_ledger :
    (c1Token.secret = stdCfg.jwt.refreshSecret ∧
     50 < c1Token.exp ∧
     (∀ r ∈ c1State.ledger, 50 < r.expiresAt) ∧
     AuthController.validateRefreshToken c1State.ledger c1Token c1Token.id 50 = true) ∧
    (AuthController.refreshToken stdCfg c1State (some c1Token) 50).isSuccess = false := by
  decide

/-- C1 (amended): refresh returns a new access token exactly when the token
is signature-valid under the refresh secret, not expired by its own embedded
expiry claim, present in the ledger in a row matching its embedded user id
that passes the query's expiry test — which, being a raw text comparison of
the ISO-format `expires_at` against datetime("now"), accepts every row whose
expiry lies on the same or a later UTC day than the query instant — and the
user identified by the embedded id exists and is active; and after logout
deletes the ledger rows of the token, every subsequent refresh with that
token fails with InvalidRefreshToken. -/
theorem c1_refresh_accept_iff (cfg : Config) (st : LoginState) (t : Token) (now : Nat) :
    ((AuthController.refreshToken cfg st (some t) now).isSuccess = true ↔
      (t.secret = cfg.jwt.refreshSecret ∧ now < t.exp ∧
       AuthController.validateRefreshToken st.ledger t t.id now = true ∧
       User.isActiveById st.users t.id = true)) ∧
    ∀ now2 : Nat,
      AuthController.refreshToken cfg (AuthController.logout st (some t)).2 (some t) now2 =
        .invalidRefreshToken := by
  constructor
  · unfold AuthController.refreshToken jwtVerify
    by_cases hsec : t.secret = cfg.jwt.refreshSecret
    · by_cases hexp : t.exp ≤ now
      · have hlt : ¬ now < t.exp := by omega
        simp [hsec, hexp, hlt, AuthController.RefreshOutcome.isSuccess]
      · have hlt : now < t.exp := by omega
        cases hval : AuthController.validateRefreshToken st.ledger t t.id now with
        | false => simp [hsec, hexp, hval, AuthController.RefreshOutcome.isSuccess]
        | true =>
          cases hfind : User.findById st.users t.id with
          | none =>
            simp [hsec, hexp, hval, hfind, User.isActiveById,
              AuthController.RefreshOutcome.isSuccess]
          | some u =>
            by_cases hst : u.status = "active" <;>
              simp [hsec, hexp, hval, hfind, hst, hlt, User.isActiveById,
                AuthController.RefreshOutcome.isSuccess]
    · simp [hsec, AuthController.RefreshOutcome.isSuccess]
  · intro now2
    have hval : ∀ uid, AuthController.validateRefreshToken
        (AuthController.logout st (some t)).2.ledger t uid now2 = false := by
      intro uid
      rw [Bool.eq_false_iff]
      intro hcontr
      unfold AuthController.validateRefreshToken at hcontr
      rw [List.any_eq_true] at hcontr
      obtain ⟨rrec, hmem, hprop⟩ := hcontr
      simp only [AuthController.logout, AuthController.removeRefreshToken] at hmem
      have h2 := List.mem_filter.mp hmem
      simp at h2 hprop
      exact h2.2 hprop.1.1
    unfold AuthController.refreshToken
    cases hv : jwtVerify t cfg.jwt.refreshSecret now2 with
    | error e => simp [hv]
    | ok decoded => simp [hv, hval decoded.id]

/-- Witness for C1 at a state where every acceptance condition holds: the
same instantiation also yields the revocation property after logout. -/
theorem c1_refresh_accept_iff_witness :
    ((AuthController.refreshToken stdCfg c1wState (some c1Token) 50).isSuccess = true ↔
      (c1Token.secret = stdCfg.jwt.refreshSecret ∧ 50 < c1Token.exp ∧
       AuthController.validateRefreshToken c1wState.ledger c1Token c1Token.id 50 = true ∧
       User.isActiveById c1wState.users c1Token.id = true)) ∧
    ∀ now2 : Nat,
      AuthController.refreshToken stdCfg (AuthController.logout c1wState (some c1Token)).2
          (some c1Token) now2 =
        .invalidRefreshToken :=
  c1_refresh_accept_iff stdCfg c1wState c1Token 50
